import Mathlib

/-!
Verification of the `pubtools-executors` repository against its
natural-language specification.

The development shallowly embeds the code of
`src/pubtools/_executors/helpers.py` (the retry wrapper) and
`src/pubtools/_executors/skopeo.py` (the skopeo command set), and models
the executor-bearer classes (whose module is referenced by the test suite
but is not part of the provided sources) from the specification and the
behaviour pinned by `tests/test_command_executor.py`.
-/

/- ## Retry wrapper: src/pubtools/_executors/helpers.py -/

/-- Constant `MAX_RETRY_WAIT = 120` from helpers.py. -/
def MAX_RETRY_WAIT : Nat := 120

/-- Outcome of a `run_with_retries` call.  `returnedNone` models the Python
function falling off the end of its `for` loop and implicitly returning
`None` (this can only happen when `tries = 0`). -/
inductive RetryOutcome (ε α : Type) where
  | success : α → RetryOutcome ε α
  | raised : ε → RetryOutcome ε α
  | returnedNone : RetryOutcome ε α
  deriving DecidableEq

/-- Observable trace of one `run_with_retries` call: how many times the
wrapped operation was invoked, the successive arguments passed to
`time.sleep`, and the final outcome. -/
structure RetryTrace (ε α : Type) where
  calls : Nat
  sleeps : List Nat
  outcome : RetryOutcome ε α
  deriving DecidableEq

/-- The body of the `for i in range(tries)` loop of `run_with_retries`
(helpers.py, lines 26-43), translated clause by clause.  The wrapped
operation is modelled as `f : Nat → Except ε α`, giving the outcome of the
invocation made at 0-indexed attempt `i`.  `remaining` is the number of loop
iterations still to run (`tries - i` at every call site), `waitTime` is the
current value of the Python local `wait_time`.

On `f i = ok a` the function returns (`RetryOutcome.success`).  On failure,
if `i < tries - 1` the new wait is
`i * wait_time_increase if wait_time < MAX_RETRY_WAIT else MAX_RETRY_WAIT`,
the loop sleeps that long and continues; otherwise the exception is
re-raised (`RetryOutcome.raised`). -/
def runWithRetriesGo {ε α : Type} (f : Nat → Except ε α) (tries wti : Nat) :
    Nat → Nat → Nat → RetryTrace ε α
  | 0, _, _ => ⟨0, [], RetryOutcome.returnedNone⟩
  | remaining + 1, i, waitTime =>
    match f i with
    | Except.ok a => ⟨1, [], RetryOutcome.success a⟩
    | Except.error e =>
      if i < tries - 1 then
        let w := if waitTime < MAX_RETRY_WAIT then i * wti else MAX_RETRY_WAIT
        let rest := runWithRetriesGo f tries wti remaining (i + 1) w
        ⟨rest.calls + 1, w :: rest.sleeps, rest.outcome⟩
      else
        ⟨1, [], RetryOutcome.raised e⟩

/-- Function `run_with_retries(function, message, tries, wait_time_increase)` from
helpers.py: `wait_time = 0`, then the loop `for i in range(tries)`.
`wti` is `wait_time_increase`. -/
def run_with_retries {ε α : Type} (f : Nat → Except ε α) (tries wti : Nat) :
    RetryTrace ε α :=
  runWithRetriesGo f tries wti tries 0 0

/-- The sequence of wait times produced by consecutive failing attempts:
`waitSeq wti i` is the value assigned to `wait_time` after failed attempt
`i`, given that attempts `0..i` all failed.  Attempt 0 starts from
`wait_time = 0 < MAX_RETRY_WAIT`, hence waits `0 * wti = 0`; afterwards the
code tests the PREVIOUS wait against the cap. -/
def waitSeq (wti : Nat) : Nat → Nat
  | 0 => 0
  | j + 1 => if waitSeq wti j < MAX_RETRY_WAIT then (j + 1) * wti else MAX_RETRY_WAIT

/-- An operation that fails on every invocation (used to instantiate
universally quantified theorems on a concrete input). -/
def alwaysFailUnit : Nat → Except Unit Unit := fun _ => Except.error ()

/-- An operation that fails on its first invocation (raising `7`) and
succeeds with result `5` from the second invocation on. -/
def failOnceThenOk : Nat → Except Nat Nat := fun i =>
  if i < 1 then Except.error 7 else Except.ok 5

/-- An operation that fails on every invocation, raising `i + 1` at 0-indexed
attempt `i`. -/
def alwaysFailNat : Nat → Except Nat Nat := fun i => Except.error (i + 1)

/- ## Executor bearers

The module defining `LocalExecutorBearer`, `RemoteExecutorBearer` and
`ContainerExecutorBearer` (`pubtools/_executors/__init__.py`) is not among
the provided sources; only its test suite (`tests/test_command_executor.py`)
and its callers are.  The definitions in this section are therefore modelled
from the specification, with concrete values (default arguments, literal
messages, the chmod mode) pinned by the assertions of the test suite. -/

/-- Default error message of `_run_cmd`, pinned by
`test_container_executor_run_cmd_error` which matches the raised
`RuntimeError` against exactly this text. -/
def defaultErrMsg : String := "An error has occured when executing a command."

/-- Modelled from the spec: the execution-failure exception raised by
`_run_cmd` on a nonzero completion status; per the error taxonomy it
"carries message, exit indicator, captured stderr". -/
structure ExecutionFailure where
  message : String
  exitIndicator : Int
  stderr : String
  deriving DecidableEq

/-- Modelled from the spec: `LocalExecutorBearer._run_cmd` (the missing
bearer module).  The backend interaction is abstracted to its observables:
`returncode` of the spawned process and the captured `(out, err)` pair from
`communicate`.  "Nonzero and not tolerated → generic runtime failure
carrying `err_msg` (or a default message plus exit code and stderr).
Returns `(stdout, stderr)` otherwise." -/
def LocalExecutorBearer.run_command (returncode : Int) (out err : String)
    (tolerate_err : Bool) (err_msg : Option String) :
    Except ExecutionFailure (String × String) :=
  if returncode ≠ 0 ∧ tolerate_err = false then
    Except.error ⟨err_msg.getD defaultErrMsg, returncode, err⟩
  else
    Except.ok (out, err)

/-- Modelled from the spec: `RemoteExecutorBearer._run_cmd` (the missing
bearer module), abstracted to the channel exit status and the decoded
stdout/stderr reads; the nonzero-status handling is "the same generic
runtime failure as" the local bearer. -/
def RemoteExecutorBearer.run_command (exitStatus : Int) (out err : String)
    (tolerate_err : Bool) (err_msg : Option String) :
    Except ExecutionFailure (String × String) :=
  if exitStatus ≠ 0 ∧ tolerate_err = false then
    Except.error ⟨err_msg.getD defaultErrMsg, exitStatus, err⟩
  else
    Except.ok (out, err)

/-- Modelled from the spec: `ContainerExecutorBearer._run_cmd` (the missing
bearer module), abstracted to the captured output of the exec session and exit
code.  It "decodes captured output as one merged stream reused for both
stdout and stderr"; "absent output normalizes to empty text, never a null
value"; nonzero exit code not tolerated raises the same generic failure. -/
def ContainerExecutorBearer.run_command (output : Option String) (exitCode : Int)
    (tolerate_err : Bool) (err_msg : Option String) :
    Except ExecutionFailure (String × String) :=
  let o := output.getD ""
  if exitCode ≠ 0 ∧ tolerate_err = false then
    Except.error ⟨err_msg.getD defaultErrMsg, exitCode, o⟩
  else
    Except.ok (o, o)

/-- Host-key trust policies of the secure-shell client:
`warningPolicy` accepts and logs connections to unseen hosts,
`rejectPolicy` rejects them. -/
inductive MissingHostPolicy where
  | warningPolicy
  | rejectPolicy
  deriving DecidableEq

/-- Modelled from the spec: the state fixed by the constructor of
`RemoteExecutorBearer` (the missing bearer module): hostname, credentials, port and the
missing-host-key trust policy. -/
structure RemoteExecutorBearer where
  hostname : String
  username : Option String
  key_filename : Option String
  password : Option String
  port : Nat
  missing_host_policy : MissingHostPolicy
  deriving DecidableEq

/-- Modelled from the spec: `RemoteExecutorBearer.__init__` with all
arguments given explicitly.  `accept_unknown_host = true` yields the
accept-and-log (`WarningPolicy`) policy, `false` the `RejectPolicy`, as
asserted by `test_remote_executor_init`. -/
def RemoteExecutorBearer.init (hostname : String)
    (username key_filename password : Option String) (port : Nat)
    (accept_unknown_host : Bool) : RemoteExecutorBearer :=
  { hostname := hostname
    username := username
    key_filename := key_filename
    password := password
    port := port
    missing_host_policy :=
      if accept_unknown_host then MissingHostPolicy.warningPolicy
      else MissingHostPolicy.rejectPolicy }

/-- Modelled from the spec and test suite: `RemoteExecutorBearer(hostname)`
with every optional argument omitted.  The defaults are port 22 and
`accept_unknown_host = True`: `test_remote_executor_init` constructs
`RemoteExecutorBearer("127.0.0.1")` and asserts its `missing_host_policy`
is a `WarningPolicy` instance. -/
def RemoteExecutorBearer.initDefaults (hostname : String) : RemoteExecutorBearer :=
  RemoteExecutorBearer.init hostname none none none 22 true

/-- Calls issued on the secure file-transfer (SFTP) channel. -/
inductive SftpEvent where
  | put (remotePath : String) (data : String)
  | chmod (path : String) (mode : Nat)
  deriving DecidableEq

/-- Modelled from the spec: `RemoteExecutorBearer._add_file(data, filename)`
(the missing bearer module), as the sequence of file-transfer calls it
issues: an upload of `data` to `/tmp/<filename>` followed by a chmod of that
path.  The numeric mode argument is pinned by
`test_remote_executor_add_file`, which asserts
`chmod("/tmp/some_file", 600)` — the decimal literal `600`, not the octal
literal `0o600`. -/
def RemoteExecutorBearer.add_file (data filename : String) : List SftpEvent :=
  [SftpEvent.put ("/tmp/" ++ filename) data,
   SftpEvent.chmod ("/tmp/" ++ filename) 600]

/-- Calls issued on the container-runtime API client during one
`ContainerExecutorBearer` scope. -/
inductive ContainerEvent where
  | createContainer (image : String)
  | startContainer (cid : String)
  | removeContainer (cid : String) (force : Bool)
  | execCreate (cid : String) (cmd : String)
  | execStart (execId : String)
  | putArchive (cid : String) (path : String)
  deriving DecidableEq

/-- Runtime calls a scope body can issue through `_run_cmd` / `_add_file`
(none of which removes a container). -/
inductive ContainerBodyStep where
  | execCreate (cmd : String)
  | execStart (execId : String)
  | putArchive (path : String)
  deriving DecidableEq

/-- Interpretation of a body step as a runtime call against the container
`cid` owned by the bearer. -/
def ContainerBodyStep.toEvent (cid : String) : ContainerBodyStep → ContainerEvent
  | ContainerBodyStep.execCreate cmd => ContainerEvent.execCreate cid cmd
  | ContainerBodyStep.execStart e => ContainerEvent.execStart e
  | ContainerBodyStep.putArchive p => ContainerEvent.putArchive cid p

/-- Whether a runtime call removes a container. -/
def ContainerEvent.isRemoval : ContainerEvent → Bool
  | ContainerEvent.removeContainer _ _ => true
  | _ => false

/-- Number of container removals in a runtime-call trace. -/
def removalCount (trace : List ContainerEvent) : Nat :=
  trace.countP ContainerEvent.isRemoval

/-- Modelled from the spec: one `with ContainerExecutorBearer(...)` scope
(the `__enter__`/`__exit__` pair of the missing bearer module).  Entry creates a
container from `image` (detached, with a TTY), starts it and records its
identifier `cid`; the body then performs `steps` and finishes with
`bodyResult` (`Except.error` when the body, `_run_cmd` or `_add_file`
raises); exit force-removes the container by identifier unconditionally,
after which the outcome of the body still propagates unchanged. -/
def ContainerExecutorBearer.scope {ε α : Type} (image cid : String)
    (steps : List ContainerBodyStep) (bodyResult : Except ε α) :
    List ContainerEvent × Except ε α :=
  (ContainerEvent.createContainer image ::
    ContainerEvent.startContainer cid ::
    (steps.map (ContainerBodyStep.toEvent cid) ++
      [ContainerEvent.removeContainer cid true]),
   bodyResult)

/- ## Skopeo command set: src/pubtools/_executors/skopeo.py -/

/-- The single-quote character, as a string. -/
def sglq : String := String.singleton (Char.ofNat 39)

/-- Characters regarded as safe by `shlex.quote` (Python): ASCII word
characters plus underscore, at-sign, percent, plus, equals, colon, comma, dot, slash and dash. -/
def shlexSafeChar (c : Char) : Bool :=
  (c.isAlpha && c.val < 128) || c.isDigit || "_@%+=:,./-".toList.contains c

/-- Function `shlex.quote(s)` from the Python standard library, used by skopeo.py:
returns two quotes for the empty string, `s` unchanged when every character
is safe, and otherwise `s` wrapped in single quotes with every embedded
single quote replaced by the quote-dquote-quote-dquote-quote sequence. -/
def shlexQuote (s : String) : String :=
  if s = "" then sglq ++ sglq
  else if s.toList.all shlexSafeChar then s
  else sglq ++ s.replace sglq (sglq ++ "\"" ++ sglq ++ "\"" ++ sglq) ++ sglq

/-- Python `needle in hay` on strings: substring containment. -/
def pyIn (needle hay : String) : Bool :=
  decide (List.IsInfix needle.toList hay.toList)

/-- Python truthiness of an optional string: `None` and the empty string are
falsy. -/
def truthy : Option String → Bool
  | none => false
  | some s => s ≠ ""

/-- Backend calls a command-set method issues on its executor bearer. -/
inductive BearerCall where
  | run_command (cmd : String) (tolerate_err : Bool)
  | add_file (data : String) (filename : String)
  deriving DecidableEq

/-- Exceptions `skopeo_login` can raise. -/
inductive SkopeoError where
  | valueError (msg : String)
  | runtimeError (msg : String)
  deriving DecidableEq

/-- The outputs the bearer returns for the two commands `skopeo_login` may
run: the login-status check and the login command itself. -/
structure BearerResponses where
  checkOut : String
  checkErr : String
  loginOut : String
  loginErr : String
  deriving DecidableEq

/-- Constant `cmd_check` from `skopeo_login`. -/
def cmd_check : String := "skopeo login --get-login quay.io"

/-- The `ValueError` message of `skopeo_login` for missing credentials. -/
def credsMsg : String :=
  "Skopeo login credentials are not present. Quay user and token must be provided."

/-- Command `cmd_login` from `skopeo_login`: the literal format string with
`quote(username)` and `quote(password_file)` substituted. -/
def cmd_login (username password_file : String) : String :=
  " sh -c " ++ sglq ++ "cat /tmp/" ++ shlexQuote password_file ++
    " | skopeo login --authfile $HOME/.docker/config.json -u " ++
    shlexQuote username ++ " --password-stdin quay.io" ++ sglq

/-- The `RuntimeError` message of `skopeo_login` when the login command does
not produce the expected output. -/
def loginFailedMsg (out err : String) : String :=
  "Login command didn" ++ sglq ++ "t generate expected output." ++
    " STDOUT: " ++ sglq ++ out ++ sglq ++ ", STDERR: " ++ sglq ++ err ++ sglq

/-- Method `SkopeoCommands.skopeo_login(username, password)` (skopeo.py, lines
40-79), translated clause by clause over the bearer responses `resp`;
returns the ordered list of backend calls issued together with the outcome.
First it runs the tolerated login-status check; if `username` is truthy and
contained in the check output it returns; if `username` or `password` is
falsy it raises `ValueError`; otherwise it stages the password file,
runs the login command, and raises `RuntimeError` unless the output
contains the success marker. -/
def SkopeoCommands.skopeo_login (username password : Option String)
    (resp : BearerResponses) : List BearerCall × Except SkopeoError Unit :=
  let calls0 := [BearerCall.run_command cmd_check true]
  if truthy username && pyIn (username.getD "") resp.checkOut then
    (calls0, Except.ok ())
  else if !truthy username || !truthy password then
    (calls0, Except.error (SkopeoError.valueError credsMsg))
  else
    let password_file := "skopeo_password.txt"
    let calls2 := calls0 ++
      [BearerCall.add_file (password.getD "") password_file,
       BearerCall.run_command (cmd_login (username.getD "") password_file) false]
    if pyIn "Login Succeeded" resp.loginOut then
      (calls2, Except.ok ())
    else
      (calls2, Except.error (SkopeoError.runtimeError
        (loginFailedMsg resp.loginOut resp.loginErr)))

/- ## Helper lemmas about the retry loop -/

/-- If attempts `0..k-1` fail and attempt `k < tries` succeeds with `a`,
then from attempt `i ≤ k` (with the loop invariant
`remaining = tries - i`) the loop performs `k - i + 1` further invocations
and returns `a`. -/
theorem runWithRetriesGo_success {ε α : Type} (f : Nat → Except ε α)
    (tries wti : Nat) (a : α) (k : Nat) (hsucc : f k = Except.ok a)
    (hfail : ∀ j, j < k → ∃ e, f j = Except.error e) (hk : k < tries) :
    ∀ remaining i waitTime, i ≤ k → remaining = tries - i →
      (runWithRetriesGo f tries wti remaining i waitTime).calls = k - i + 1 ∧
      (runWithRetriesGo f tries wti remaining i waitTime).outcome =
        RetryOutcome.success a := by
  intro remaining
  induction remaining with
  | zero => intro i w hik hrem; omega
  | succ m ih =>
    intro i w hik hrem
    rcases Nat.eq_or_lt_of_le hik with hik2 | hlt
    · subst hik2
      simp [runWithRetriesGo, hsucc]
    · obtain ⟨e, he⟩ := hfail i hlt
      have hcond : i < tries - 1 := by omega
      obtain ⟨h1, h2⟩ := ih (i + 1)
        (if w < MAX_RETRY_WAIT then i * wti else MAX_RETRY_WAIT)
        (by omega) (by omega)
      simp only [runWithRetriesGo, he, hcond, if_pos]
      refine ⟨?_, h2⟩
      rw [h1]
      omega

/-- If every attempt up to `tries` fails (attempt `j` raising `e j`), then
from attempt `i < tries` the loop performs `tries - i` further invocations
and re-raises the exception of the final attempt. -/
theorem runWithRetriesGo_allfail {ε α : Type} (f : Nat → Except ε α)
    (tries wti : Nat) (e : Nat → ε)
    (hfail : ∀ j, j < tries → f j = Except.error (e j)) :
    ∀ remaining i waitTime, i < tries → remaining = tries - i →
      (runWithRetriesGo f tries wti remaining i waitTime).calls = tries - i ∧
      (runWithRetriesGo f tries wti remaining i waitTime).outcome =
        RetryOutcome.raised (e (tries - 1)) := by
  intro remaining
  induction remaining with
  | zero => intro i w hi hrem; omega
  | succ m ih =>
    intro i w hi hrem
    have he := hfail i hi
    by_cases hcond : i < tries - 1
    · obtain ⟨h1, h2⟩ := ih (i + 1)
        (if w < MAX_RETRY_WAIT then i * wti else MAX_RETRY_WAIT)
        (by omega) (by omega)
      simp only [runWithRetriesGo, he, hcond, if_pos]
      refine ⟨?_, h2⟩
      rw [h1]
      omega
    · have hlast : i = tries - 1 := by omega
      subst hlast
      simp only [runWithRetriesGo, he, if_neg hcond]
      refine ⟨?_, trivial⟩
      show 1 = tries - (tries - 1)
      omega

/-- Equation: on a failed attempt that still has a retry, the sleeps of the
remaining loop are the new wait followed by the sleeps started from the next
attempt. -/
theorem runWithRetriesGo_retry_sleeps {ε α : Type} (f : Nat → Except ε α)
    (tries wti m i w : Nat) (e : ε) (h : f i = Except.error e)
    (hc : i < tries - 1) :
    (runWithRetriesGo f tries wti (m + 1) i w).sleeps =
      (if w < MAX_RETRY_WAIT then i * wti else MAX_RETRY_WAIT) ::
        (runWithRetriesGo f tries wti m (i + 1)
          (if w < MAX_RETRY_WAIT then i * wti else MAX_RETRY_WAIT)).sleeps := by
  simp [runWithRetriesGo, h, hc]

/-- The sleeps performed by the loop from attempt `i` are an initial segment
of `waitSeq wti` evaluated at consecutive attempt indices starting at `i`,
provided the incoming `wait_time` value `w` satisfies the loop invariant
relating it to `waitSeq`. -/
theorem runWithRetriesGo_sleeps {ε α : Type} (f : Nat → Except ε α)
    (tries wti : Nat) :
    ∀ remaining i w,
      (if w < MAX_RETRY_WAIT then i * wti else MAX_RETRY_WAIT) = waitSeq wti i →
      ∃ len, (runWithRetriesGo f tries wti remaining i w).sleeps =
        (List.range' i len).map (waitSeq wti) := by
  intro remaining
  induction remaining with
  | zero => intro i w _; exact ⟨0, rfl⟩
  | succ m ih =>
    intro i w hw
    rcases hfi : f i with e | a
    case ok => exact ⟨0, by simp [runWithRetriesGo, hfi]⟩
    by_cases hcond : i < tries - 1
    · have hnext :
          (if (if w < MAX_RETRY_WAIT then i * wti else MAX_RETRY_WAIT) <
              MAX_RETRY_WAIT
            then (i + 1) * wti else MAX_RETRY_WAIT) = waitSeq wti (i + 1) := by
        rw [hw, waitSeq]
      obtain ⟨len, hlen⟩ := ih (i + 1)
        (if w < MAX_RETRY_WAIT then i * wti else MAX_RETRY_WAIT) hnext
      refine ⟨len + 1, ?_⟩
      rw [runWithRetriesGo_retry_sleeps f tries wti m i w e hfi hcond, hlen, hw]
      rfl
    · exact ⟨0, by simp [runWithRetriesGo, hfi, hcond]⟩

/-- Each value of `waitSeq` is either a multiple of the step by the attempt
index or exactly the cap. -/
theorem waitSeq_le (wti j : Nat) :
    waitSeq wti j ≤ max (j * wti) MAX_RETRY_WAIT := by
  cases j with
  | zero => simp [waitSeq]
  | succ n =>
    rw [waitSeq]
    split
    · exact le_max_left _ _
    · exact le_max_right _ _

/-- Body steps issue no container removals. -/
theorem bodySteps_no_removal (cid : String) (steps : List ContainerBodyStep) :
    (steps.map (ContainerBodyStep.toEvent cid)).countP ContainerEvent.isRemoval
      = 0 := by
  induction steps with
  | nil => rfl
  | cons s rest ih =>
    cases s <;>
      simpa [List.countP_cons, ContainerBodyStep.toEvent,
        ContainerEvent.isRemoval] using ih

/- ## Claim theorems -/

/-- C1: for every operation and every `tries = n ≥ 1`: if the operation
fails exactly `k` times and then succeeds (`k < n`), `run_with_retries`
returns the successful result after invoking the operation exactly `k + 1`
times; if it fails on every invocation, `run_with_retries` invokes it
exactly `n` times and then raises. -/
theorem claim_C1 {ε α : Type} (f : Nat → Except ε α) (n k wti : Nat)
    (e : Nat → ε) (a : α) (hn : 1 ≤ n) :
    (k < n → (∀ j, j < k → f j = Except.error (e j)) → f k = Except.ok a →
      (run_with_retries f n wti).calls = k + 1 ∧
      (run_with_retries f n wti).outcome = RetryOutcome.success a) ∧
    ((∀ j, j < n → f j = Except.error (e j)) →
      (run_with_retries f n wti).calls = n ∧
      (run_with_retries f n wti).outcome = RetryOutcome.raised (e (n - 1))) := by
  constructor
  · intro hk hfail hsucc
    have := runWithRetriesGo_success f n wti a k hsucc
      (fun j hj => ⟨e j, hfail j hj⟩) hk n 0 0 (Nat.zero_le k) (by omega)
    simpa [run_with_retries] using this
  · intro hfail
    have := runWithRetriesGo_allfail f n wti e hfail n 0 0 (by omega) (by omega)
    simpa [run_with_retries] using this

/-- Witness for C1 at a concrete input: one failure, then success at the
second invocation, with `tries = 3`. -/
theorem claim_C1_witness :
    (run_with_retries failOnceThenOk 3 9).calls = 2 ∧
    (run_with_retries failOnceThenOk 3 9).outcome = RetryOutcome.success 5 :=
  (claim_C1 failOnceThenOk 3 1 9 (fun _ => 7) 5 (by decide)).1 (by decide)
    (by
      intro j hj
      have hj0 : j = 0 := by omega
      subst hj0
      rfl)
    (by rfl)

/-- C2 fails on the code: with `tries = 4` and `wait_time_increase = 130`
the always-failing operation sleeps `[0, 130, 120]`: the sleep after failed
attempt 1 is `130 > MAX_RETRY_WAIT`, and the sleep after failed attempt 2 is
`120 ≠ 2 * 130`, because the cap test reads the PREVIOUS wait value. -/
theorem claim_C2_counterexample :
    (run_with_retries alwaysFailUnit 4 130).sleeps = [0, 130, 120] ∧
    ¬(130 ≤ MAX_RETRY_WAIT) ∧ (120 : Nat) ≠ 2 * 130 := by decide

/-- C2 amended: the sleep recorded after failed attempt `j` equals
`waitSeq wti j`, i.e. `j * wait_time_increase` when the previous wait was
below `MAX_RETRY_WAIT` and exactly `MAX_RETRY_WAIT` otherwise; each sleep is
therefore bounded by `max (j * wait_time_increase) MAX_RETRY_WAIT` (a single
sleep may exceed the cap when `j * wait_time_increase > 120`, the cap only
forces every LATER sleep to 120). -/
theorem claim_C2 {ε α : Type} (f : Nat → Except ε α) (tries wti j : Nat)
    (hj : j < (run_with_retries f tries wti).sleeps.length) :
    (run_with_retries f tries wti).sleeps.get ⟨j, hj⟩ = waitSeq wti j ∧
    waitSeq wti j ≤ max (j * wti) MAX_RETRY_WAIT := by
  refine ⟨?_, waitSeq_le wti j⟩
  obtain ⟨len, hlen⟩ := runWithRetriesGo_sleeps f tries wti tries 0 0
    (by simp [MAX_RETRY_WAIT, waitSeq])
  have hget := List.get_of_eq (show (run_with_retries f tries wti).sleeps =
    (List.range' 0 len).map (waitSeq wti) from hlen) ⟨j, hj⟩
  rw [hget]
  simp

/-- Witness for C2 at a concrete input: the second sleep (index 1) of the
always-failing operation with `tries = 4`, `wait_time_increase = 130`. -/
theorem claim_C2_witness :
    (run_with_retries alwaysFailUnit 4 130).sleeps.get ⟨1, by decide⟩ =
      waitSeq 130 1 ∧
    waitSeq 130 1 ≤ max (1 * 130) MAX_RETRY_WAIT :=
  claim_C2 alwaysFailUnit 4 130 1 (by decide)

/-- C3: for every `ContainerExecutorBearer` scope, whatever runtime calls
the body performs and however it finishes (normal exit, tolerated failure,
or a raised exception from the body, `_run_cmd` or `_add_file`), the trace
of runtime calls contains exactly one container removal — the forced
removal of the container created on entry — it is the final call of the
scope, and the outcome of the body still propagates unchanged after it. -/
theorem claim_C3 {ε α : Type} (image cid : String)
    (steps : List ContainerBodyStep) (res : Except ε α) :
    removalCount (ContainerExecutorBearer.scope image cid steps res).1 = 1 ∧
    (ContainerExecutorBearer.scope image cid steps res).1.getLast? =
      some (ContainerEvent.removeContainer cid true) ∧
    (ContainerExecutorBearer.scope image cid steps res).2 = res := by
  refine ⟨?_, ?_, rfl⟩
  · show ((ContainerEvent.createContainer image ::
      ContainerEvent.startContainer cid ::
      (steps.map (ContainerBodyStep.toEvent cid) ++
        [ContainerEvent.removeContainer cid true])).countP
          ContainerEvent.isRemoval) = 1
    simp [List.countP_cons, List.countP_append, bodySteps_no_removal,
      ContainerEvent.isRemoval, removalCount]
    intro a _
    cases a <;> rfl
  · show (ContainerEvent.createContainer image ::
      ContainerEvent.startContainer cid ::
      (steps.map (ContainerBodyStep.toEvent cid) ++
        [ContainerEvent.removeContainer cid true])).getLast? =
      some (ContainerEvent.removeContainer cid true)
    rw [show ContainerEvent.createContainer image ::
        ContainerEvent.startContainer cid ::
        (steps.map (ContainerBodyStep.toEvent cid) ++
          [ContainerEvent.removeContainer cid true]) =
        (ContainerEvent.createContainer image ::
          ContainerEvent.startContainer cid ::
          steps.map (ContainerBodyStep.toEvent cid)) ++
          [ContainerEvent.removeContainer cid true] by simp]
    exact List.getLast?_concat _

/-- C4: for every bearer variant and every command, a zero completion
status makes `_run_cmd` return the captured `(stdout, stderr)` pair without
raising; a nonzero status with `tolerate_err = false` raises the generic
execution failure carrying `err_msg` (or the default message together with
the exit indicator and the captured stderr); and the identical call with
`tolerate_err = true` returns the captured output unchanged. -/
theorem claim_C4 (rc : Int) (out err : String) (te : Bool)
    (em : Option String) (output : Option String) :
    (rc = 0 →
      LocalExecutorBearer.run_command rc out err te em = Except.ok (out, err) ∧
      RemoteExecutorBearer.run_command rc out err te em = Except.ok (out, err) ∧
      ContainerExecutorBearer.run_command output rc te em =
        Except.ok (output.getD "", output.getD "")) ∧
    (rc ≠ 0 →
      LocalExecutorBearer.run_command rc out err false em =
        Except.error ⟨em.getD defaultErrMsg, rc, err⟩ ∧
      RemoteExecutorBearer.run_command rc out err false em =
        Except.error ⟨em.getD defaultErrMsg, rc, err⟩ ∧
      ContainerExecutorBearer.run_command output rc false em =
        Except.error ⟨em.getD defaultErrMsg, rc, output.getD ""⟩ ∧
      LocalExecutorBearer.run_command rc out err true em = Except.ok (out, err) ∧
      RemoteExecutorBearer.run_command rc out err true em = Except.ok (out, err) ∧
      ContainerExecutorBearer.run_command output rc true em =
        Except.ok (output.getD "", output.getD "")) := by
  constructor
  · intro h0
    subst h0
    simp [LocalExecutorBearer.run_command, RemoteExecutorBearer.run_command,
      ContainerExecutorBearer.run_command]
  · intro hne
    simp [LocalExecutorBearer.run_command, RemoteExecutorBearer.run_command,
      ContainerExecutorBearer.run_command, hne]

/-- Witness for C4 at the concrete input of the test suite: status `-1`,
captured output `("outlog", "errlog")`, no custom message, not tolerated. -/
theorem claim_C4_witness :
    LocalExecutorBearer.run_command (-1) "outlog" "errlog" false none =
      Except.error ⟨defaultErrMsg, -1, "errlog"⟩ :=
  ((claim_C4 (-1) "outlog" "errlog" false none none).2 (by decide)).1

/-- C5 fails on the code: `RemoteExecutorBearer("127.0.0.1")` with the
`accept_unknown_host` flag omitted carries the accept-and-log
(`WarningPolicy`) missing-host-key policy, not the reject policy the claim
attributes to the default (the test suite asserts `WarningPolicy` here, so
the constructor default is `accept_unknown_host = True`). -/
theorem claim_C5_counterexample :
    (RemoteExecutorBearer.initDefaults "127.0.0.1").missing_host_policy ≠
      MissingHostPolicy.rejectPolicy := by decide

/-- C5 amended: `accept_unknown_host = true` yields the accept-and-log
(warning) missing-host-key policy and `false` yields the reject policy, the
policy being a pure function of the construction arguments; but the default
when the flag is omitted is `true` (accept-and-log), not `false`. -/
theorem claim_C5 (hostname : String) (username key_filename password : Option String)
    (port : Nat) :
    (RemoteExecutorBearer.init hostname username key_filename password port
      true).missing_host_policy = MissingHostPolicy.warningPolicy ∧
    (RemoteExecutorBearer.init hostname username key_filename password port
      false).missing_host_policy = MissingHostPolicy.rejectPolicy ∧
    RemoteExecutorBearer.initDefaults hostname =
      RemoteExecutorBearer.init hostname none none none 22 true := by
  exact ⟨rfl, rfl, rfl⟩

/-- C6: `RemoteExecutorBearer._add_file` uploads the data to
`/tmp/<filename>` and then calls chmod on that path with the numeric
argument `600` — the decimal literal, which is octal `1130`, NOT the octal
mode `0600 = 384` the claim (and the spec intent of owner read/write only)
requires. -/
theorem claim_C6 :
    RemoteExecutorBearer.add_file "some-data" "some_file" =
      [SftpEvent.put "/tmp/some_file" "some-data",
       SftpEvent.chmod "/tmp/some_file" 600] ∧
    (600 : Nat) ≠ 0o600 := by
  refine ⟨rfl, by decide⟩

/-- C7: when `run_with_retries` exhausts all tries, the exception raised to
the caller is the final exception raised by the operation, unchanged; with
`tries = 1` no sleep ever occurs (for any operation) and the first failure
propagates immediately as-is after a single invocation. -/
theorem claim_C7 {ε α : Type} (f : Nat → Except ε α) (n wti : Nat)
    (e : Nat → ε) (hn : 1 ≤ n) (hfail : ∀ j, j < n → f j = Except.error (e j)) :
    (run_with_retries f n wti).outcome = RetryOutcome.raised (e (n - 1)) ∧
    (∀ g : Nat → Except ε α, (run_with_retries g 1 wti).sleeps = []) ∧
    (∀ (g : Nat → Except ε α) (e0 : ε), g 0 = Except.error e0 →
      run_with_retries g 1 wti = ⟨1, [], RetryOutcome.raised e0⟩) := by
  refine ⟨?_, ?_, ?_⟩
  · exact (runWithRetriesGo_allfail f n wti e hfail n 0 0 (by omega) (by omega)).2
  · intro g
    rcases hg : g 0 with e0 | a0 <;>
      simp [run_with_retries, runWithRetriesGo, hg]
  · intro g e0 hg
    simp [run_with_retries, runWithRetriesGo, hg]

/-- Witness for C7 at a concrete input: the always-failing operation with
`tries = 3` re-raises the exception of its third (final) attempt, `3`. -/
theorem claim_C7_witness :
    (run_with_retries alwaysFailNat 3 10).outcome = RetryOutcome.raised 3 :=
  (claim_C7 alwaysFailNat 3 10 (fun i => i + 1) (by decide)
    (fun _ _ => rfl)).1

/-- C8: whenever `ContainerExecutorBearer._run_cmd` returns, both elements
of the returned pair are the same decoded merged stream; and when the
runtime reports absent (`None`) output with a zero exit code, both elements
are the empty string. -/
theorem claim_C8 (output : Option String) (ec : Int) (te : Bool)
    (em : Option String) (pair : String × String)
    (h : ContainerExecutorBearer.run_command output ec te em = Except.ok pair) :
    pair.1 = pair.2 ∧ pair.1 = output.getD "" ∧
    ContainerExecutorBearer.run_command none 0 te em = Except.ok ("", "") := by
  refine ⟨?_, ?_, by simp [ContainerExecutorBearer.run_command]⟩ <;>
  · unfold ContainerExecutorBearer.run_command at h
    split at h
    · exact absurd h (by simp)
    · cases h
      rfl

/-- Witness for C8 at the concrete input of the test suite: output
`b"some output"` with exit code 0. -/
theorem claim_C8_witness :
    (("some output", "some output") : String × String).1 =
      (("some output", "some output") : String × String).2 ∧
    (("some output", "some output") : String × String).1 =
      (some "some output").getD "" ∧
    ContainerExecutorBearer.run_command none 0 false none = Except.ok ("", "") :=
  claim_C8 (some "some output") 0 false none ("some output", "some output") rfl

/-- C9 fails on the code: calling `skopeo_login` with both credentials
absent raises the missing-credentials `ValueError`, but only AFTER one
backend call has been issued — the tolerated login-status check
`run_cmd("skopeo login --get-login quay.io", tolerate_err=True)` — so the
list of backend calls preceding the failure is not empty. -/
theorem claim_C9_counterexample :
    SkopeoCommands.skopeo_login none none ⟨"", "", "", ""⟩ =
      ([BearerCall.run_command cmd_check true],
        Except.error (SkopeoError.valueError credsMsg)) ∧
    ([BearerCall.run_command cmd_check true] : List BearerCall) ≠ [] := by
  exact ⟨rfl, by decide⟩

/-- C9 amended: for every call of `skopeo_login` in which `username` or
`password` is absent (falsy) and the user is not already logged in, the
missing-credentials `ValueError` is raised after exactly one backend call —
the tolerated login-status check — and before any `add_file` or any further
`run_cmd` is issued on the bearer. -/
theorem claim_C9 (username password : Option String) (resp : BearerResponses)
    (hnotin : (truthy username && pyIn (username.getD "") resp.checkOut) = false)
    (hmissing : (!truthy username || !truthy password) = true) :
    SkopeoCommands.skopeo_login username password resp =
      ([BearerCall.run_command cmd_check true],
        Except.error (SkopeoError.valueError credsMsg)) := by
  simp [SkopeoCommands.skopeo_login, hnotin, hmissing]

/-- Witness for C9 at a concrete input: both credentials absent, empty
bearer responses. -/
theorem claim_C9_witness :
    SkopeoCommands.skopeo_login none none ⟨"x", "", "", ""⟩ =
      ([BearerCall.run_command cmd_check true],
        Except.error (SkopeoError.valueError credsMsg)) :=
  claim_C9 none none ⟨"x", "", "", ""⟩ rfl rfl

/-- C10: calling `run_with_retries` with `tries = 0` never invokes the
operation and returns `None` without raising: zero invocations, no sleeps,
outcome `returnedNone`. -/
theorem claim_C10 {ε α : Type} (f : Nat → Except ε α) (wti : Nat) :
    run_with_retries f 0 wti = ⟨0, [], RetryOutcome.returnedNone⟩ := rfl
